import Mathlib

/-!
Shallow embedding of the quaketracker earthquake-map scripts.

The repository holds two near-duplicate browser scripts:
* `src/script.js` — magnitude-basis coloring: `getColor(magnitude)` with a
  gray fallback for null/undefined magnitude, legend grades `[0,2,4,5,6,8]`.
* `src/unnamed/part_000` — depth-basis coloring: `getColor(depth)` with no
  null special case, legend grades `[-10,10,30,70,150,300]` with a `+1`
  offset when sampling the color for a legend swatch.

Both variants share `calculateRadius` and the `addEarthquakeMarkers` loop.
JavaScript numbers that may also be `null` or `undefined` are embedded as
`JVal`; numeric values are embedded as exact rationals (the scripts treat
them as real quantities, and no claim depends on binary floating point).
-/

namespace QuakeMap

/-- A JavaScript value flowing into the marker calculators: `null`,
`undefined` (an absent property or array slot), or a number. -/
inductive JVal where
  | null
  | undef
  | num (q : ℚ)
deriving DecidableEq, Repr

/-- `calculateRadius` from both `src/script.js` (lines 127-139) and
`src/unnamed/part_000` (lines 124-136):
null/undefined magnitude returns 3, negative magnitude returns 2, otherwise
`Math.max(magnitude * magnitude * 0.5, 3)`. -/
def calculateRadius (magnitude : JVal) : ℚ :=
  match magnitude with
  | JVal.null => 3
  | JVal.undef => 3
  | JVal.num m =>
    if m < 0 then 2
    else max (m * m * (1 / 2)) 3

/-- `getColor` from `src/unnamed/part_000` (lines 144-152), the depth-basis
variant, on a numeric depth: a chain of strict `>` threshold comparisons. -/
def getColorDepth (depth : ℚ) : String :=
  if depth > 300 then "#b30000"
  else if depth > 150 then "#e34a33"
  else if depth > 70 then "#fc8d59"
  else if depth > 30 then "#fdbb84"
  else if depth > 10 then "#fee8c8"
  else "#fff7ec"

/-- The depth-basis `getColor` on a raw JavaScript value. The source has no
null/undefined branch; in JavaScript `null > t` coerces `null` to `0` and
`undefined > t` yields `NaN` comparisons, so for these all-positive
thresholds every comparison is false and both fall through to the final
else branch. -/
def getColorDepthJ (depth : JVal) : String :=
  match depth with
  | JVal.num d => getColorDepth d
  | _ => "#fff7ec"

/-- `getColor` from `src/script.js` (lines 147-159), the magnitude-basis
variant: gray for null/undefined magnitude, then a chain of `>=` threshold
comparisons. -/
def getColorMag (magnitude : JVal) : String :=
  match magnitude with
  | JVal.null => "#cccccc"
  | JVal.undef => "#cccccc"
  | JVal.num m =>
    if m ≥ 8 then "#800026"
    else if m ≥ 6 then "#BD0026"
    else if m ≥ 5 then "#E31A1C"
    else if m ≥ 4 then "#FD8D3C"
    else if m ≥ 2 then "#FEB24C"
    else "#FFEDA0"

/-- Rendering of a number to one decimal place, modelling
`Number.prototype.toFixed(1)` on the exact rational value (the decimal
rounding of the binary float representation is abstracted to rounding of
the rational; no claim depends on the rounding direction at ties). -/
def toFixed1 (q : ℚ) : String :=
  let n : ℤ := round (q * 10)
  (if n < 0 then "-" else "") ++ toString (n.natAbs / 10) ++ "." ++ toString (n.natAbs % 10)

/-- The magnitude field of the tooltip template:
`magnitude !== null ? magnitude.toFixed(1) : 'N/A'`. For `undefined` the
strict inequality `!== null` is true and `undefined.toFixed(1)` raises a
TypeError. -/
def magText (v : JVal) : Except String String :=
  match v with
  | JVal.null => Except.ok "N/A"
  | JVal.undef => Except.error "TypeError: cannot read toFixed of undefined"
  | JVal.num q => Except.ok (toFixed1 q)

/-- The depth field of the tooltip template:
`depth !== null ? depth.toFixed(1) + ' km' : 'N/A'`; same TypeError for an
`undefined` depth. -/
def depthText (v : JVal) : Except String String :=
  match v with
  | JVal.null => Except.ok "N/A"
  | JVal.undef => Except.error "TypeError: cannot read toFixed of undefined"
  | JVal.num q => Except.ok (toFixed1 q ++ " km")

/-- `props.place || 'Information unavailable'` — JavaScript `||` takes the
fallback for a missing or empty (falsy) string. -/
def placeText (p : Option String) : String :=
  match p with
  | some s => if s = "" then "Information unavailable" else s
  | none => "Information unavailable"

/-- `new Date(props.time).toLocaleString()` — locale rendering is external
to the program; it is total in the epoch value, embedded as its decimal
string. -/
def timeText (t : ℤ) : String :=
  toString t

/-- `props.url ? '<br><a href="...">More Info (USGS)</a>' : ''` —
JavaScript truthiness: a missing or empty URL string yields the empty
fragment. -/
def urlText (u : Option String) : String :=
  match u with
  | some s =>
    if s = "" then ""
    else "<br><a href=\"" ++ s ++ "\" target=\"_blank\" rel=\"noopener noreferrer\">More Info (USGS)</a>"
  | none => ""

/-- The tooltip template literal of `addEarthquakeMarkers`; its
interpolations evaluate left to right (magnitude, place, time, depth, url)
and the two `toFixed` calls are the only subexpressions that can raise. -/
def tooltipContent (mag depth : JVal) (pl : Option String) (t : ℤ) (u : Option String) :
    Except String String := do
  let m ← magText mag
  let d ← depthText depth
  Except.ok ("<b>Magnitude: " ++ m ++ "</b><br>Location: " ++ placeText pl ++
    "<br>Time: " ++ timeText t ++ "<br>Depth: " ++ d ++ urlText u)

/-- `feature.geometry.coordinates`: a GeoJSON coordinate array whose slots
are JavaScript values (a short array yields `undefined` slots; USGS can
ship a `null` depth). -/
structure Geometry where
  coordinates : Option (List JVal)
deriving DecidableEq, Repr

/-- `feature.properties`: the fields the scripts read. `mag` can be a
number, `null`, or absent (`undefined`). -/
structure Props where
  mag : JVal
  place : Option String
  time : ℤ
  url : Option String
deriving DecidableEq, Repr

/-- One GeoJSON feature as the marker loop sees it; `geometry` is `none`
when `feature.geometry` is null/undefined (JavaScript falsy). -/
structure Feature where
  geometry : Option Geometry
  properties : Props
deriving DecidableEq, Repr

/-- The attributes of one `L.circleMarker` call in the depth-basis variant:
position `[coords[1], coords[0]]`, radius from magnitude, fill color from
depth. -/
structure Circle where
  latLng : JVal × JVal
  radius : ℚ
  fillColor : String
deriving DecidableEq, Repr

/-- JavaScript array indexing: out-of-range access yields `undefined`. -/
def jsIndex (l : List JVal) (i : ℕ) : JVal :=
  (l.get? i).getD JVal.undef

/-- The guard `feature.geometry && feature.geometry.coordinates`: the
coordinate array, when both are present (truthy). -/
def coordsOf (f : Feature) : Option (List JVal) :=
  f.geometry.bind (fun g => g.coordinates)

/-- The circle-marker attributes computed for one feature with coordinate
array `coords` (depth-basis variant, `src/unnamed/part_000` lines 88-95). -/
def mkCircle (f : Feature) (coords : List JVal) : Circle :=
  { latLng := (jsIndex coords 1, jsIndex coords 0)
    radius := calculateRadius f.properties.mag
    fillColor := getColorDepthJ (jsIndex coords 2) }

/-- The tooltip built for one feature with coordinate array `coords`. -/
def featTooltip (f : Feature) (coords : List JVal) : Except String String :=
  tooltipContent f.properties.mag (jsIndex coords 2) f.properties.place
    f.properties.time f.properties.url

/-- Outcome of the `features.forEach` loop: circles added to the map (in
feed order), the number of per-feature diagnostics recorded for features
lacking geometry/coordinates, and whether an exception escaped the loop
(aborting all later features). -/
structure RenderResult where
  circles : List Circle
  skipped : ℕ
  threw : Bool
deriving DecidableEq, Repr

/-- `addEarthquakeMarkers` from `src/unnamed/part_000` lines 75-116 (the
`src/script.js` variant differs only in tooltip text order and in passing
the magnitude to its own `getColor`): each feature lacking
geometry/coordinates is skipped with a `console.warn` diagnostic; for a
feature with coordinates the circle marker is added to the map first, then
the tooltip is built and bound — if the tooltip raises, the exception
escapes the `forEach` and no later feature is processed. -/
def addEarthquakeMarkers : List Feature → RenderResult
  | [] => ⟨[], 0, false⟩
  | f :: fs =>
    match coordsOf f with
    | none =>
      let r := addEarthquakeMarkers fs
      ⟨r.circles, r.skipped + 1, r.threw⟩
    | some coords =>
      let c := mkCircle f coords
      match featTooltip f coords with
      | Except.error _ => ⟨[c], 0, true⟩
      | Except.ok _ =>
        let r := addEarthquakeMarkers fs
        ⟨c :: r.circles, r.skipped, r.threw⟩

/-- The pure per-feature marker function: the circles a throw-free run
produces, in feed order. -/
def circlesOf (fs : List Feature) : List Circle :=
  fs.filterMap (fun g => (coordsOf g).map (mkCircle g))

/-- A feature whose processing cannot raise: either it is skipped, or its
tooltip builds successfully. -/
def noThrow (f : Feature) : Bool :=
  match coordsOf f with
  | none => true
  | some coords =>
    match featTooltip f coords with
    | Except.ok _ => true
    | Except.error _ => false

/-- Legend label `from + (to ? '&ndash;' + to : '+')` with JavaScript
truthiness on `to` (`undefined` past the last grade, and a zero grade,
are falsy); `&ndash;` is the HTML entity for the en dash. -/
def legendLabel (gfrom : ℤ) (gto : Option ℤ) : String :=
  toString gfrom ++
    (match gto with
     | some t => if t = 0 then "+" else "&ndash;" ++ toString t
     | none => "+")

/-- Depth legend breakpoints, `src/unnamed/part_000` line 159. -/
def depthGrades : List ℤ := [-10, 10, 30, 70, 150, 300]

/-- Magnitude legend breakpoints, `src/script.js` line 165. -/
def magGrades : List ℤ := [0, 2, 4, 5, 6, 8]

/-- `createLegend` of the depth variant (`src/unnamed/part_000` lines
158-177) as the ordered list of (swatch color, label) pairs it renders:
the swatch samples `getColor(from + 1)`. -/
def createLegendDepth : List (String × String) :=
  (List.range depthGrades.length).map (fun i =>
    (getColorDepth ((depthGrades.getD i 0 : ℤ) + 1 : ℚ),
     legendLabel (depthGrades.getD i 0) (depthGrades.get? (i + 1))))

/-- `createLegend` of the magnitude variant (`src/script.js` lines 164-183):
the swatch samples `getColor(from)` with no offset. -/
def createLegendMag : List (String × String) :=
  (List.range magGrades.length).map (fun i =>
    (getColorMag (JVal.num (magGrades.getD i 0 : ℤ)),
     legendLabel (magGrades.getD i 0) (magGrades.get? (i + 1))))

/-- The reorder of a feed coordinate triple `[lon, lat, depth]` into the
`[lat, lon]` pair handed to the map library (`const latLng = [coords[1],
coords[0]]`). -/
def reorderForMap (t : ℚ × ℚ × ℚ) : ℚ × ℚ :=
  (t.2.1, t.1)

/-- Modelled from the spec: the "reverse reordering" of the round-trip
sentence; the source contains only the forward reorder, so the reverse is
the evident swap of the pair back to `[lon, lat]`. -/
def reorderBack (p : ℚ × ℚ) : ℚ × ℚ :=
  (p.2, p.1)

/-- C1: `calculateRadius` returns 3 for a null or undefined magnitude,
2 for a negative magnitude, and otherwise `max(m * m * 0.5, 3)`; it is
always at least 2, equals 3 for all magnitudes with `0 ≤ m` and `m² ≤ 6`
(i.e. `0 ≤ m ≤ √6`, phrased via squares since `√6` is irrational), and is
strictly increasing in `m²` from `m² = 6` upward. -/
theorem C1_calculateRadius_contract :
    (calculateRadius JVal.null = 3 ∧ calculateRadius JVal.undef = 3) ∧
    (∀ m : ℚ, m < 0 → calculateRadius (JVal.num m) = 2) ∧
    (∀ m : ℚ, 0 ≤ m → calculateRadius (JVal.num m) = max (m * m * (1 / 2)) 3) ∧
    (∀ v : JVal, 2 ≤ calculateRadius v) ∧
    (∀ m : ℚ, 0 ≤ m → m * m ≤ 6 → calculateRadius (JVal.num m) = 3) ∧
    (∀ m₁ m₂ : ℚ, 0 ≤ m₁ → 0 ≤ m₂ → 6 ≤ m₁ * m₁ → m₁ * m₁ < m₂ * m₂ →
      calculateRadius (JVal.num m₁) < calculateRadius (JVal.num m₂)) := by
  refine ⟨⟨rfl, rfl⟩, ?_, ?_, ?_, ?_, ?_⟩
  · intro m hm
    simp [calculateRadius, hm]
  · intro m hm
    simp [calculateRadius, not_lt.mpr hm]
  · intro v
    cases v with
    | null => norm_num [calculateRadius]
    | undef => norm_num [calculateRadius]
    | num m =>
      by_cases hm : m < 0
      · simp [calculateRadius, hm]
      · simp only [calculateRadius, if_neg hm]
        exact le_trans (by norm_num) (le_max_right _ 3)
  · intro m hm h6
    have hneg : ¬ m < 0 := not_lt.mpr hm
    simp only [calculateRadius, if_neg hneg]
    exact max_eq_right (by linarith)
  · intro m₁ m₂ h1 h2 h6 hlt
    have hneg1 : ¬ m₁ < 0 := not_lt.mpr h1
    have hneg2 : ¬ m₂ < 0 := not_lt.mpr h2
    simp only [calculateRadius, if_neg hneg1, if_neg hneg2]
    have e1 : max (m₁ * m₁ * (1 / 2)) 3 = m₁ * m₁ * (1 / 2) :=
      max_eq_left (by linarith)
    rw [e1]
    exact lt_of_lt_of_le (by linarith) (le_max_left _ 3)

/-- C1 witness: the contract instantiated at concrete magnitudes. -/
theorem C1_calculateRadius_contract_witness :
    calculateRadius (JVal.num (-1 / 2)) = 2 ∧
    calculateRadius (JVal.num (7 / 2)) = max ((7 / 2) * (7 / 2) * (1 / 2)) 3 ∧
    2 ≤ calculateRadius JVal.null ∧
    calculateRadius (JVal.num 2) = 3 ∧
    calculateRadius (JVal.num (5 / 2)) < calculateRadius (JVal.num 3) :=
  ⟨C1_calculateRadius_contract.2.1 (-1 / 2) (by norm_num),
   C1_calculateRadius_contract.2.2.1 (7 / 2) (by norm_num),
   C1_calculateRadius_contract.2.2.2.1 JVal.null,
   C1_calculateRadius_contract.2.2.2.2.1 2 (by norm_num) (by norm_num),
   C1_calculateRadius_contract.2.2.2.2.2 (5 / 2) 3 (by norm_num) (by norm_num)
     (by norm_num) (by norm_num)⟩

/-- C2: the depth-basis `getColor` selects one of six fixed hex colors by
strict `>` thresholds (300, 150, 70, 30, 10); boundaries are
exclusive-above, so exactly 300 falls in the `>150` band, and a null (or
undefined) depth falls through to the final else branch `#fff7ec`. -/
theorem C2_getColorDepth_bands :
    (∀ d : ℚ,
      (300 < d → getColorDepth d = "#b30000") ∧
      (150 < d → d ≤ 300 → getColorDepth d = "#e34a33") ∧
      (70 < d → d ≤ 150 → getColorDepth d = "#fc8d59") ∧
      (30 < d → d ≤ 70 → getColorDepth d = "#fdbb84") ∧
      (10 < d → d ≤ 30 → getColorDepth d = "#fee8c8") ∧
      (d ≤ 10 → getColorDepth d = "#fff7ec")) ∧
    getColorDepth 300 = "#e34a33" ∧
    getColorDepthJ JVal.null = "#fff7ec" ∧
    getColorDepthJ JVal.undef = "#fff7ec" ∧
    (∀ v : JVal,
      getColorDepthJ v = "#b30000" ∨ getColorDepthJ v = "#e34a33" ∨
      getColorDepthJ v = "#fc8d59" ∨ getColorDepthJ v = "#fdbb84" ∨
      getColorDepthJ v = "#fee8c8" ∨ getColorDepthJ v = "#fff7ec") := by
  refine ⟨?_, by decide, rfl, rfl, ?_⟩
  · intro d
    refine ⟨?_, ?_, ?_, ?_, ?_, ?_⟩ <;>
      · intros
        unfold getColorDepth
        split_ifs <;> first | rfl | linarith
  · intro v
    cases v with
    | null => simp [getColorDepthJ]
    | undef => simp [getColorDepthJ]
    | num d =>
      simp only [getColorDepthJ]
      unfold getColorDepth
      split_ifs <;> simp

/-- C2 witness: the band contract instantiated at concrete depths. -/
theorem C2_getColorDepth_bands_witness :
    getColorDepth 400 = "#b30000" ∧
    getColorDepth 200 = "#e34a33" ∧
    getColorDepth 100 = "#fc8d59" ∧
    getColorDepth 50 = "#fdbb84" ∧
    getColorDepth 20 = "#fee8c8" ∧
    getColorDepth 5 = "#fff7ec" ∧
    (getColorDepthJ (JVal.num 400) = "#b30000" ∨
      getColorDepthJ (JVal.num 400) = "#e34a33" ∨
      getColorDepthJ (JVal.num 400) = "#fc8d59" ∨
      getColorDepthJ (JVal.num 400) = "#fdbb84" ∨
      getColorDepthJ (JVal.num 400) = "#fee8c8" ∨
      getColorDepthJ (JVal.num 400) = "#fff7ec") :=
  ⟨(C2_getColorDepth_bands.1 400).1 (by norm_num),
   (C2_getColorDepth_bands.1 200).2.1 (by norm_num) (by norm_num),
   (C2_getColorDepth_bands.1 100).2.2.1 (by norm_num) (by norm_num),
   (C2_getColorDepth_bands.1 50).2.2.2.1 (by norm_num) (by norm_num),
   (C2_getColorDepth_bands.1 20).2.2.2.2.1 (by norm_num) (by norm_num),
   (C2_getColorDepth_bands.1 5).2.2.2.2.2 (by norm_num),
   C2_getColorDepth_bands.2.2.2.2 (JVal.num 400)⟩

/-- C3: the magnitude-basis `getColor` returns `#cccccc` for a null or
undefined magnitude and otherwise one of six fixed hex colors by inclusive
`≥` thresholds (8, 6, 5, 4, 2); exactly 6 yields `#BD0026`, 8.1 yields
`#800026`, and the output is always one of these seven strings. -/
theorem C3_getColorMag_bands :
    getColorMag JVal.null = "#cccccc" ∧
    getColorMag JVal.undef = "#cccccc" ∧
    (∀ m : ℚ,
      (8 ≤ m → getColorMag (JVal.num m) = "#800026") ∧
      (6 ≤ m → m < 8 → getColorMag (JVal.num m) = "#BD0026") ∧
      (5 ≤ m → m < 6 → getColorMag (JVal.num m) = "#E31A1C") ∧
      (4 ≤ m → m < 5 → getColorMag (JVal.num m) = "#FD8D3C") ∧
      (2 ≤ m → m < 4 → getColorMag (JVal.num m) = "#FEB24C") ∧
      (m < 2 → getColorMag (JVal.num m) = "#FFEDA0")) ∧
    getColorMag (JVal.num 6) = "#BD0026" ∧
    getColorMag (JVal.num (81 / 10)) = "#800026" ∧
    (∀ v : JVal,
      getColorMag v = "#cccccc" ∨ getColorMag v = "#800026" ∨
      getColorMag v = "#BD0026" ∨ getColorMag v = "#E31A1C" ∨
      getColorMag v = "#FD8D3C" ∨ getColorMag v = "#FEB24C" ∨
      getColorMag v = "#FFEDA0") := by
  refine ⟨rfl, rfl, ?_, by norm_num [getColorMag], by norm_num [getColorMag], ?_⟩
  · intro m
    refine ⟨?_, ?_, ?_, ?_, ?_, ?_⟩ <;>
      · intros
        simp only [getColorMag]
        split_ifs <;> first | rfl | linarith
  · intro v
    cases v with
    | null => simp [getColorMag]
    | undef => simp [getColorMag]
    | num m =>
      simp only [getColorMag]
      split_ifs <;> simp

/-- C3 witness: the band contract instantiated at concrete magnitudes. -/
theorem C3_getColorMag_bands_witness :
    getColorMag (JVal.num 9) = "#800026" ∧
    getColorMag (JVal.num 7) = "#BD0026" ∧
    getColorMag (JVal.num (11 / 2)) = "#E31A1C" ∧
    getColorMag (JVal.num (9 / 2)) = "#FD8D3C" ∧
    getColorMag (JVal.num 3) = "#FEB24C" ∧
    getColorMag (JVal.num 1) = "#FFEDA0" ∧
    (getColorMag (JVal.num 9) = "#cccccc" ∨ getColorMag (JVal.num 9) = "#800026" ∨
      getColorMag (JVal.num 9) = "#BD0026" ∨ getColorMag (JVal.num 9) = "#E31A1C" ∨
      getColorMag (JVal.num 9) = "#FD8D3C" ∨ getColorMag (JVal.num 9) = "#FEB24C" ∨
      getColorMag (JVal.num 9) = "#FFEDA0") :=
  ⟨(C3_getColorMag_bands.2.2.1 9).1 (by norm_num),
   (C3_getColorMag_bands.2.2.1 7).2.1 (by norm_num) (by norm_num),
   (C3_getColorMag_bands.2.2.1 (11 / 2)).2.2.1 (by norm_num) (by norm_num),
   (C3_getColorMag_bands.2.2.1 (9 / 2)).2.2.2.1 (by norm_num) (by norm_num),
   (C3_getColorMag_bands.2.2.1 3).2.2.2.2.1 (by norm_num) (by norm_num),
   (C3_getColorMag_bands.2.2.1 1).2.2.2.2.2 (by norm_num),
   C3_getColorMag_bands.2.2.2.2.2 (JVal.num 9)⟩

/-- C9: the range of `calculateRadius` has a gap — every result is either
at least 3, or exactly 2, and 2 occurs only for a negative numeric
magnitude; no input gives a radius strictly between 2 and 3. -/
theorem C9_radius_range_gap :
    ∀ v : JVal,
      (3 ≤ calculateRadius v ∨
        (calculateRadius v = 2 ∧ ∃ m : ℚ, v = JVal.num m ∧ m < 0)) ∧
      ¬(2 < calculateRadius v ∧ calculateRadius v < 3) := by
  intro v
  have key : 3 ≤ calculateRadius v ∨
      (calculateRadius v = 2 ∧ ∃ m : ℚ, v = JVal.num m ∧ m < 0) := by
    cases v with
    | null => exact Or.inl (by norm_num [calculateRadius])
    | undef => exact Or.inl (by norm_num [calculateRadius])
    | num m =>
      by_cases hm : m < 0
      · exact Or.inr ⟨by simp [calculateRadius, hm], m, rfl, hm⟩
      · refine Or.inl ?_
        simp only [calculateRadius, if_neg hm]
        exact le_max_right _ 3
  refine ⟨key, ?_⟩
  rcases key with h | ⟨h, _⟩
  · rintro ⟨_, hlt⟩
    linarith
  · rintro ⟨hgt, _⟩
    rw [h] at hgt
    exact lt_irrefl _ hgt

/-- C9 witness: the range-gap statement at concrete inputs. -/
theorem C9_radius_range_gap_witness :
    ((3 ≤ calculateRadius (JVal.num (-1)) ∨
        (calculateRadius (JVal.num (-1)) = 2 ∧
          ∃ m : ℚ, JVal.num (-1) = JVal.num m ∧ m < 0)) ∧
      ¬(2 < calculateRadius (JVal.num (-1)) ∧ calculateRadius (JVal.num (-1)) < 3)) :=
  C9_radius_range_gap (JVal.num (-1))

/-- The depth legend evaluated: swatch colors sample `getColor(from + 1)`
over grades `[-10, 10, 30, 70, 150, 300]`. -/
lemma createLegendDepth_eq :
    createLegendDepth =
      [("#fff7ec", "-10&ndash;10"), ("#fee8c8", "10&ndash;30"), ("#fdbb84", "30&ndash;70"),
       ("#fc8d59", "70&ndash;150"), ("#e34a33", "150&ndash;300"), ("#b30000", "300+")] := by
  norm_num [createLegendDepth, depthGrades, getColorDepth, legendLabel, List.range_succ]
  exact ⟨rfl, rfl, rfl, rfl, rfl, rfl⟩

/-- The magnitude legend evaluated: swatch colors sample `getColor(from)`
over grades `[0, 2, 4, 5, 6, 8]`. -/
lemma createLegendMag_eq :
    createLegendMag =
      [("#FFEDA0", "0&ndash;2"), ("#FEB24C", "2&ndash;4"), ("#FD8D3C", "4&ndash;5"),
       ("#E31A1C", "5&ndash;6"), ("#BD0026", "6&ndash;8"), ("#800026", "8+")] := by
  norm_num [createLegendMag, magGrades, getColorMag, legendLabel, List.range_succ]
  exact ⟨rfl, rfl, rfl, rfl, rfl, rfl⟩

/-- C4: legend and marker coloring never disagree. For the depth variant
(offset `+1`) and the magnitude variant (offset `0`), the swatch color of
legend entry `i` equals the color the corresponding `getColor` returns for
every value strictly inside the band `(grades[i], grades[i+1])`, and, for
the final entry, for every value above the last grade. -/
theorem C4_legend_marker_agreement :
    (∀ i : ℕ, i + 1 < depthGrades.length → ∀ v : ℚ,
      ((depthGrades.getD i 0 : ℤ) : ℚ) < v → v < ((depthGrades.getD (i + 1) 0 : ℤ) : ℚ) →
      (createLegendDepth.getD i ("", "")).1 = getColorDepth v) ∧
    (∀ v : ℚ, (300 : ℚ) < v → (createLegendDepth.getD 5 ("", "")).1 = getColorDepth v) ∧
    (∀ i : ℕ, i + 1 < magGrades.length → ∀ v : ℚ,
      ((magGrades.getD i 0 : ℤ) : ℚ) < v → v < ((magGrades.getD (i + 1) 0 : ℤ) : ℚ) →
      (createLegendMag.getD i ("", "")).1 = getColorMag (JVal.num v)) ∧
    (∀ v : ℚ, (8 : ℚ) < v → (createLegendMag.getD 5 ("", "")).1 = getColorMag (JVal.num v)) := by
  refine ⟨?_, ?_, ?_, ?_⟩
  · intro i hi v h1 h2
    have hi4 : i ≤ 4 := by simp [depthGrades] at hi; omega
    rw [createLegendDepth_eq]
    interval_cases i <;>
    · norm_num [depthGrades] at h1 h2 ⊢
      unfold getColorDepth
      split_ifs <;> first | rfl | linarith
  · intro v hv
    rw [createLegendDepth_eq]
    norm_num
    unfold getColorDepth
    rw [if_pos hv]
  · intro i hi v h1 h2
    have hi4 : i ≤ 4 := by simp [magGrades] at hi; omega
    rw [createLegendMag_eq]
    interval_cases i <;>
    · norm_num [magGrades] at h1 h2 ⊢
      simp only [getColorMag]
      split_ifs <;> first | rfl | linarith
  · intro v hv
    rw [createLegendMag_eq]
    norm_num
    simp only [getColorMag]
    split_ifs <;> first | rfl | linarith

/-- C4 witness: legend-marker agreement at concrete band interiors. -/
theorem C4_legend_marker_agreement_witness :
    (createLegendDepth.getD 0 ("", "")).1 = getColorDepth 0 ∧
    (createLegendDepth.getD 5 ("", "")).1 = getColorDepth 400 ∧
    (createLegendMag.getD 1 ("", "")).1 = getColorMag (JVal.num 3) ∧
    (createLegendMag.getD 5 ("", "")).1 = getColorMag (JVal.num 9) :=
  ⟨C4_legend_marker_agreement.1 0 (by norm_num [depthGrades]) 0
     (by norm_num [depthGrades]) (by norm_num [depthGrades]),
   C4_legend_marker_agreement.2.1 400 (by norm_num),
   C4_legend_marker_agreement.2.2.1 1 (by norm_num [magGrades]) 3
     (by norm_num [magGrades]) (by norm_num [magGrades]),
   C4_legend_marker_agreement.2.2.2 9 (by norm_num)⟩

/-- C8: `createLegend` over the depth grades `[-10, 10, 30, 70, 150, 300]`
produces exactly 6 entries, one per grade; every entry but the last is
labeled `from&ndash;to` (the `&ndash;` entity renders as the en dash of
the spec) with consecutive grades as bounds, and the last is `300+`. -/
theorem C8_createLegend_entries :
    createLegendDepth.length = depthGrades.length ∧
    createLegendDepth.length = 6 ∧
    createLegendDepth.map Prod.snd =
      ["-10&ndash;10", "10&ndash;30", "30&ndash;70", "70&ndash;150", "150&ndash;300", "300+"] :=
  ⟨rfl, rfl, rfl⟩

/-- C6 counterexample: the round-trip claim is false as stated — the
forward reorder maps a triple to a pair, collapsing triples that differ
only in depth (shown at the concrete triples `(0,0,0)` and `(0,0,1)`), so
no reverse reordering recovers the original triple on every input. -/
theorem C6_reorder_roundtrip_cex :
    ¬ ∃ g : ℚ × ℚ → ℚ × ℚ × ℚ, ∀ t : ℚ × ℚ × ℚ, g (reorderForMap t) = t := by
  rintro ⟨g, hg⟩
  have h0 := hg (0, 0, 0)
  have h1 := hg (0, 0, 1)
  have hsame : reorderForMap (0, 0, 0) = reorderForMap (0, 0, 1) := rfl
  rw [hsame, h1] at h0
  have hdepth := congrArg (fun t : ℚ × ℚ × ℚ => t.2.2) h0
  norm_num at hdepth

/-- C6 amended: the round trip recovers the longitude and latitude exactly;
depth is dropped by the forward reordering into a `[lat, lon]` pair, so
only the two geographic components survive. -/
theorem C6_reorder_roundtrip_latlon :
    ∀ lon lat depth : ℚ, reorderBack (reorderForMap (lon, lat, depth)) = (lon, lat) := by
  intro lon lat depth
  rfl

/-- C5: radius and color computation complete normally for both null and
undefined values, and the tooltip completes for null values; but the
tooltip template guards `toFixed` only with `!== null`, so an undefined
magnitude or depth reaches `undefined.toFixed(1)` and raises a TypeError —
the code does not handle the undefined half of the claim. -/
theorem C5_absent_values_tooltip_bug :
    calculateRadius JVal.null = 3 ∧
    calculateRadius JVal.undef = 3 ∧
    getColorMag JVal.undef = "#cccccc" ∧
    getColorDepthJ JVal.undef = "#fff7ec" ∧
    tooltipContent JVal.null JVal.null none 0 none =
      Except.ok ("<b>Magnitude: N/A</b><br>Location: Information unavailable" ++
        "<br>Time: 0<br>Depth: N/A") ∧
    (∃ e, tooltipContent JVal.undef JVal.null none 0 none = Except.error e) ∧
    (∃ e, tooltipContent (JVal.num 5) JVal.undef none 0 none = Except.error e) := by
  exact ⟨rfl, rfl, rfl, rfl, rfl, ⟨_, rfl⟩, ⟨_, rfl⟩⟩

/-- A feature lacking geometry: skipped with a diagnostic. -/
def fNoGeom : Feature :=
  { geometry := none
    properties := { mag := JVal.null, place := none, time := 0, url := none } }

/-- A well-formed feature: coordinates present, null magnitude and depth
(the forms the tooltip handles). -/
def fNullOk : Feature :=
  { geometry := some { coordinates := some [JVal.null, JVal.null, JVal.null] }
    properties := { mag := JVal.null, place := none, time := 0, url := none } }

/-- A feature with coordinates whose `properties` object lacks `mag`
(undefined magnitude): its tooltip raises. -/
def fUndefMag : Feature :=
  { geometry := some { coordinates := some [JVal.num 0, JVal.num 0, JVal.num 0] }
    properties := { mag := JVal.undef, place := none, time := 0, url := none } }

/-- C7: a feature lacking geometry/coordinates is skipped with a diagnostic
and processing continues (first half), but the claimed equivalence "marker
produced iff the feature has geometry with coordinates" fails: a feature
with coordinates and an undefined magnitude raises inside the loop, so the
later feature `fNullOk`, which has coordinates, gets no marker (second
half). -/
theorem C7_skip_continue_bug :
    (addEarthquakeMarkers [fNoGeom, fNullOk]).circles =
      [mkCircle fNullOk [JVal.null, JVal.null, JVal.null]] ∧
    (addEarthquakeMarkers [fNoGeom, fNullOk]).skipped = 1 ∧
    (addEarthquakeMarkers [fNoGeom, fNullOk]).threw = false ∧
    coordsOf fNullOk = some [JVal.null, JVal.null, JVal.null] ∧
    (addEarthquakeMarkers [fUndefMag, fNullOk]).circles =
      [mkCircle fUndefMag [JVal.num 0, JVal.num 0, JVal.num 0]] ∧
    (addEarthquakeMarkers [fUndefMag, fNullOk]).threw = true := by
  exact ⟨rfl, rfl, rfl, rfl, rfl, rfl⟩

/-- A default circle for positional lookups. -/
def dummyCircle : Circle :=
  { latLng := (JVal.null, JVal.null), radius := 0, fillColor := "" }

/-- Positional lookup just past a prefix picks the inserted element. -/
lemma getD_append_cons {α : Type} (l₁ l₂ : List α) (x d : α) :
    (l₁ ++ x :: l₂).getD l₁.length d = x := by
  induction l₁ with
  | nil => rfl
  | cons a t ih => simpa using ih

/-- A throw-free run of the marker loop renders exactly the per-feature
circles of the features that have coordinates, in feed order, and records
one diagnostic per feature lacking them. -/
lemma addEarthquakeMarkers_no_throw (fs : List Feature)
    (h : ∀ f ∈ fs, noThrow f = true) :
    addEarthquakeMarkers fs =
      ⟨circlesOf fs, fs.countP (fun g => (coordsOf g).isNone), false⟩ := by
  induction fs with
  | nil => rfl
  | cons f fs ih =>
    have hf := h f (List.mem_cons_self f fs)
    have hrest : ∀ g ∈ fs, noThrow g = true := fun g hg => h g (List.mem_cons_of_mem f hg)
    have ihr := ih hrest
    cases hc : coordsOf f with
    | none =>
      simp only [addEarthquakeMarkers, hc, ihr, circlesOf, List.filterMap_cons,
        List.countP_cons, hc, Option.isNone_none, Option.map_none]
      simp [circlesOf]
    | some coords =>
      have ht : ∃ s, featTooltip f coords = Except.ok s := by
        simp only [noThrow, hc] at hf
        cases hts : featTooltip f coords with
        | ok s => exact ⟨s, rfl⟩
        | error e => rw [hts] at hf; simp at hf
      obtain ⟨s, hts⟩ := ht
      simp only [addEarthquakeMarkers, hc, hts, ihr, circlesOf, List.filterMap_cons,
        List.countP_cons, Option.isNone_some, Option.map_some]
      simp [circlesOf]

/-- In a throw-free run, the circle rendered for a feature `f` sitting after
a prefix `pre` is `mkCircle f coords` — a function of `f` alone. -/
lemma circle_at_position (pre post : List Feature) (f : Feature) (coords : List JVal)
    (hc : coordsOf f = some coords) (h : ∀ g ∈ pre ++ f :: post, noThrow g = true) :
    (addEarthquakeMarkers (pre ++ f :: post)).circles.getD
      (circlesOf pre).length dummyCircle = mkCircle f coords := by
  rw [addEarthquakeMarkers_no_throw _ h]
  have hsplit : circlesOf (pre ++ f :: post) =
      circlesOf pre ++ mkCircle f coords :: circlesOf post := by
    simp [circlesOf, List.filterMap_append, List.filterMap_cons, hc]
  simp only [hsplit]
  exact getD_append_cons _ _ _ _

/-- Every circle the loop ever renders — aborted run or not — is
`mkCircle g coords` for one of the input features `g`, so its radius and
fill color are a function of that feature alone. -/
lemma circles_are_per_feature : ∀ (fs : List Feature) (c : Circle),
    c ∈ (addEarthquakeMarkers fs).circles →
    ∃ g coords, g ∈ fs ∧ coordsOf g = some coords ∧ c = mkCircle g coords := by
  intro fs
  induction fs with
  | nil =>
    intro c hc
    simp [addEarthquakeMarkers] at hc
  | cons f fs ih =>
    intro c hc
    cases hco : coordsOf f with
    | none =>
      simp only [addEarthquakeMarkers, hco] at hc
      obtain ⟨g, coords, hg, h1, h2⟩ := ih c hc
      exact ⟨g, coords, List.mem_cons_of_mem f hg, h1, h2⟩
    | some coords =>
      cases ht : featTooltip f coords with
      | error e =>
        simp only [addEarthquakeMarkers, hco, ht, List.mem_singleton] at hc
        exact ⟨f, coords, List.mem_cons_self f fs, hco, hc⟩
      | ok s =>
        simp only [addEarthquakeMarkers, hco, ht, List.mem_cons] at hc
        rcases hc with hc | hc
        · exact ⟨f, coords, List.mem_cons_self f fs, hco, hc⟩
        · obtain ⟨g, coords2, hg, h1, h2⟩ := ih c hc
          exact ⟨g, coords2, List.mem_cons_of_mem f hg, h1, h2⟩

/-- C10: marker attribute computation is deterministic (equal arguments
give equal radius and color in both variants) and noninterfering: every
circle any run renders carries the attributes `mkCircle g coords` of its
own feature `g` alone, and in any two throw-free feeds containing the same
feature `f`, whatever the surrounding features and their order, the circle
rendered for `f` is the same `mkCircle f coords`. -/
theorem C10_determinism_noninterference :
    (∀ v w : JVal, v = w →
      calculateRadius v = calculateRadius w ∧
      getColorDepthJ v = getColorDepthJ w ∧
      getColorMag v = getColorMag w) ∧
    (∀ (fs : List Feature) (c : Circle), c ∈ (addEarthquakeMarkers fs).circles →
      ∃ g coords, g ∈ fs ∧ coordsOf g = some coords ∧ c = mkCircle g coords) ∧
    (∀ (pre post pre₂ post₂ : List Feature) (f : Feature) (coords : List JVal),
      coordsOf f = some coords →
      (∀ g ∈ pre ++ f :: post, noThrow g = true) →
      (∀ g ∈ pre₂ ++ f :: post₂, noThrow g = true) →
      (addEarthquakeMarkers (pre ++ f :: post)).circles.getD
          (circlesOf pre).length dummyCircle = mkCircle f coords ∧
      (addEarthquakeMarkers (pre₂ ++ f :: post₂)).circles.getD
          (circlesOf pre₂).length dummyCircle = mkCircle f coords) := by
  refine ⟨?_, circles_are_per_feature, ?_⟩
  · intro v w hvw
    subst hvw
    exact ⟨rfl, rfl, rfl⟩
  · intro pre post pre₂ post₂ f coords hc h1 h2
    exact ⟨circle_at_position pre post f coords hc h1,
           circle_at_position pre₂ post₂ f coords hc h2⟩

/-- C10 witness: the same feature rendered identically in two different
feeds (one with a skipped feature before it, one with it first). -/
theorem C10_determinism_noninterference_witness :
    calculateRadius JVal.null = calculateRadius JVal.null ∧
    (∃ g coords, g ∈ [fNullOk] ∧ coordsOf g = some coords ∧
      mkCircle fNullOk [JVal.null, JVal.null, JVal.null] = mkCircle g coords) ∧
    (addEarthquakeMarkers ([fNoGeom] ++ fNullOk :: [])).circles.getD
      (circlesOf [fNoGeom]).length dummyCircle =
      mkCircle fNullOk [JVal.null, JVal.null, JVal.null] ∧
    (addEarthquakeMarkers ([] ++ fNullOk :: [fNoGeom])).circles.getD
      (circlesOf []).length dummyCircle =
      mkCircle fNullOk [JVal.null, JVal.null, JVal.null] := by
  have h := C10_determinism_noninterference
  have hmain := h.2.2 [fNoGeom] [] [] [fNoGeom] fNullOk [JVal.null, JVal.null, JVal.null]
    rfl (by decide) (by decide)
  have hmem := h.2.1 [fNullOk] (mkCircle fNullOk [JVal.null, JVal.null, JVal.null])
    (by decide)
  exact ⟨(h.1 JVal.null JVal.null rfl).1, hmem, hmain.1, hmain.2⟩

end QuakeMap
